import Mathlib

/-!
Shallow embedding of `src/index.ts` of serverless-newrelic-lambda-layers.

The plugin has two independent parts:
* the instrumentation planner `addLayer` (plus its helpers `getLayerArn`,
  `getHandlerWrapper`, `updatePackageExcludes`) which mutates a function
  definition, and
* the log-subscription-filter reconciler (`addLogStreamFilters`,
  `removeLogStreamFilters`, `ensureLogStreamFilter`, `getDestinationArn`,
  `describeSubscriptionFilters`, `addSubscriptionFilter`,
  `removeSubscriptionFilter`) which issues AWS calls.

Pure data flow is embedded as Lean functions; the AWS side is embedded as a
function from a response environment (`World`) to the list of issued/awaited
request events.
-/

namespace NewRelicLayers

/-! ### JavaScript string/truthiness helpers -/

/-- `leadMatch pat l` holds when `pat` occurs at the head of `l`. -/
def leadMatch : List Char → List Char → Bool
  | [], _ => true
  | _ :: _, [] => false
  | a :: as, b :: bs => a == b && leadMatch as bs

/-- `subMatch pat l` holds when `pat` occurs contiguously anywhere in `l`. -/
def subMatch (pat : List Char) : List Char → Bool
  | [] => leadMatch pat []
  | c :: ls => leadMatch pat (c :: ls) || subMatch pat ls

/-- JS `s.match(pat)` converts `pat` to a regex and searches `s`.  The
patterns this plugin uses ("nodejs", "python", a layer ARN) are
regex-metacharacter free except for dots, and a dot also matches itself, so
on the strings in play the search coincides with substring search, which is
how we embed it. -/
def jsMatch (s pat : String) : Bool := subMatch pat.toList s.toList

/-- JS truthiness of an optional string: `undefined` and `""` are falsy. -/
def optTruthy : Option String → Bool
  | some s => s != ""
  | none => false

/-- JS `name || funcName`: the left operand when truthy, else the right. -/
def jsOr (o : Option String) (dflt : String) : String :=
  match o with
  | some s => if s == "" then dflt else s
  | none => dflt

/-- JS template interpolation of a possibly-undefined string. -/
def optStr : Option String → String
  | some s => s
  | none => "undefined"

/-- JS `Array.prototype.indexOf` (`-1` when absent). -/
def jsIndexOf (l : List String) (s : String) : Int :=
  match l.findIdx? (fun x => x == s) with
  | some i => (i : Int)
  | none => -1

/-! ### Environment objects

A JS object holding string-valued environment variables, embedded as an
insertion-ordered association list (JS objects cannot hold duplicate keys,
and every list these operations build from a duplicate-free one is
duplicate-free). Assigning `undefined` (`envSetOpt _ _ none`) is embedded as
leaving the object unchanged: a key holding `undefined` is indistinguishable
from an absent key for every read the plugin performs. -/

def envGet (e : List (String × String)) (k : String) : Option String :=
  (e.find? (fun p => p.1 == k)).map (fun p => p.2)

/-- JS truthiness of `environment[k]`. -/
def envTruthy (e : List (String × String)) (k : String) : Bool :=
  match envGet e k with
  | some v => v != ""
  | none => false

/-- JS `environment[k] = v`: replace the value in place if the key exists,
otherwise append the pair. -/
def envSet (e : List (String × String)) (k v : String) : List (String × String) :=
  if (e.find? (fun p => p.1 == k)).isSome then
    e.map (fun p => if p.1 == k then (k, v) else p)
  else
    e ++ [(k, v)]

def envSetOpt (e : List (String × String)) (k : String) : Option String → List (String × String)
  | some v => envSet e k v
  | none => e

/-- `environment[k] = environment[k] ? environment[k] : d` -/
def envDefault (e : List (String × String)) (k d : String) : List (String × String) :=
  if envTruthy e k then e else envSet e k d

/-- `environment[k] = environment[k] ? environment[k] : d` with a
possibly-undefined default. -/
def envDefaultOpt (e : List (String × String)) (k : String) (d : Option String) :
    List (String × String) :=
  if envTruthy e k then e else envSetOpt e k d

/-! ### Data model (§3 of the manifest shapes read by the plugin) -/

/-- `package` block of a function definition (`{ exclude = [] } = pkg`);
an absent block is embedded as an empty exclude list, which is how the code
defaults it before use. -/
structure Pkg where
  exclude : List String
deriving DecidableEq

structure FunctionDef where
  name : Option String
  handler : String
  runtime : Option String
  environment : List (String × String)
  layers : List String
  pkg : Pkg
deriving DecidableEq

/-- `service.custom.newRelic` configuration bag.  `prepend` keeps its JS
looseness (`typeof prepend === "boolean"` guards it), `exclude` is the
array case of the `_.isArray` guard. -/
structure GlobalConfig where
  accountId : Option String
  trustedAccountKey : Option String
  layerArn : Option String
  exclude : List String
  prepend : Option Bool
  debug : Bool
  serverlessModeEnabled : Bool
deriving DecidableEq

/-- Ambient serverless state read by the planner. -/
structure Ctx where
  region : Option String
  providerRuntime : Option String
  enterpriseEnabled : Bool
deriving DecidableEq

/-! ### Instrumentation planner (`addLayer` and helpers) -/

/-- `getHandlerWrapper(runtime, handler)` (src/index.ts lines 234-253). -/
def getHandlerWrapper (enterpriseEnabled : Bool) (runtime handler : String) : String :=
  if (["nodejs8.10", "nodejs10.x", "nodejs12.x"].contains runtime
      || (runtime == "nodejs10.x" && enterpriseEnabled)) then
    "newrelic-lambda-wrapper.handler"
  else if jsMatch runtime "python" then
    "newrelic_lambda_wrapper.handler"
  else
    handler

/-- `updatePackageExcludes(runtime, pkg)` (src/index.ts lines 255-264). -/
def updatePackageExcludes (runtime : String) (pkg : Pkg) : Pkg :=
  if !jsMatch runtime "nodejs" then pkg
  else { exclude := pkg.exclude ++ ["!newrelic-lambda-wrapper.handler"] }

/-- The runtime whitelist of `addLayer` (src/index.ts lines 135-142). -/
def supportedRuntimes : List String :=
  ["nodejs12.x", "nodejs10.x", "nodejs8.10", "python2.7", "python3.6", "python3.7"]

/-- `typeof runtime === "string" && supported` check, over the effective
(possibly provider-inherited) runtime. -/
def runtimeSupported : Option String → Bool
  | some rt => supportedRuntimes.contains rt
  | none => false

/-- `runtime = _.get(serverless.service, "provider.runtime")` destructuring
default (src/index.ts line 121). -/
def effRuntime (ctx : Ctx) (d : FunctionDef) : Option String :=
  d.runtime <|> ctx.providerRuntime

/-- `this.config.layerArn ? this.config.layerArn : await this.getLayerArn(...)`
(src/index.ts lines 156-158); `resolvedArn` stands for the value the resolver
would produce. -/
def effectiveLayerArn (cfg : GlobalConfig) (resolvedArn : String) : String :=
  match cfg.layerArn with
  | some a => if a == "" then resolvedArn else a
  | none => resolvedArn

/-- `environment.NEW_RELIC_TRUSTED_ACCOUNT_KEY = environment.… ?
environment.… : environment.NEW_RELIC_ACCOUNT_ID ?
environment.NEW_RELIC_ACCOUNT_ID : this.config.trustedAccountKey`
(src/index.ts lines 202-206). -/
def stepTrusted (cfg : GlobalConfig) (e : List (String × String)) : List (String × String) :=
  envDefaultOpt e "NEW_RELIC_TRUSTED_ACCOUNT_KEY"
    (if envTruthy e "NEW_RELIC_ACCOUNT_ID" then envGet e "NEW_RELIC_ACCOUNT_ID"
     else cfg.trustedAccountKey)

/-- `environment.NEW_RELIC_SERVERLESS_MODE_ENABLED = "true" ? environment.…
: "true" ? this.config.serverlessModeEnabled : "false"` (src/index.ts lines
208-212): the outer ternary condition is the string literal `"true"`, which
is truthy, so the value assigned is the key's own current value. -/
def stepSmode (e : List (String × String)) : List (String × String) :=
  envSetOpt e "NEW_RELIC_SERVERLESS_MODE_ENABLED"
    (envGet e "NEW_RELIC_SERVERLESS_MODE_ENABLED")

/-- The environment-variable assignment block of `addLayer`
(src/index.ts lines 178-214), innermost application first, in source order. -/
def applyEnv (cfg : GlobalConfig) (funcName : String) (name : Option String)
    (handler : String) (e0 : List (String × String)) : List (String × String) :=
  stepSmode (stepTrusted cfg
    (envDefaultOpt
      (envDefault
        (envDefault
          (envDefault
            (envDefault
              (envSet e0 "NEW_RELIC_LAMBDA_HANDLER" handler)
              "NEW_RELIC_LOG" "stdout")
            "NEW_RELIC_LOG_LEVEL" (if cfg.debug then "debug" else "info"))
          "NEW_RELIC_NO_CONFIG_FILE" "true")
        "NEW_RELIC_APP_NAME" (jsOr name funcName))
      "NEW_RELIC_ACCOUNT_ID" cfg.accountId))

/-- The layer attachment of `addLayer` (src/index.ts lines 160-176). -/
def addLayerLayers (cfg : GlobalConfig) (resolvedArn : String) (layers : List String) :
    List String :=
  if !(layers.filter (fun l => jsMatch l (effectiveLayerArn cfg resolvedArn))).isEmpty then
    layers
  else if cfg.prepend == some true then
    effectiveLayerArn cfg resolvedArn :: layers
  else
    layers ++ [effectiveLayerArn cfg resolvedArn]

/-- The mutation tail of `addLayer` once every skip check has passed
(src/index.ts lines 156-218), with `rt` the effective runtime string. -/
def addLayerMutate (ctx : Ctx) (cfg : GlobalConfig) (resolvedArn funcName rt : String)
    (d : FunctionDef) : FunctionDef :=
  { d with
    layers := addLayerLayers cfg resolvedArn d.layers,
    environment := applyEnv cfg funcName d.name d.handler d.environment,
    handler := getHandlerWrapper ctx.enterpriseEnabled rt d.handler,
    pkg := updatePackageExcludes rt d.pkg }

inductive SkipReason where
  | noRegion
  | noAccountId
  | unsupportedRuntime
  | excluded
deriving DecidableEq

/-- `addLayer(funcName, funcDef)` (src/index.ts lines 106-218): the four
skip checks in source order, then the mutation; returns the skip reason (if
any) together with the resulting function definition. -/
def addLayer (ctx : Ctx) (cfg : GlobalConfig) (resolvedArn funcName : String)
    (d : FunctionDef) : Option SkipReason × FunctionDef :=
  if ctx.region.isNone then
    (some SkipReason.noRegion, d)
  else if !optTruthy cfg.accountId && !envTruthy d.environment "NEW_RELIC_ACCOUNT_ID" then
    (some SkipReason.noAccountId, d)
  else
    match effRuntime ctx d with
    | none => (some SkipReason.unsupportedRuntime, d)
    | some rt =>
      if !supportedRuntimes.contains rt then
        (some SkipReason.unsupportedRuntime, d)
      else if cfg.exclude.contains funcName then
        (some SkipReason.excluded, d)
      else
        (none, addLayerMutate ctx cfg resolvedArn funcName rt d)

/-! ### `run` driver (src/index.ts lines 47-73)

`run` checks the framework version, then the plugin ordering, then invokes
`addLayer` once per function key.  We embed it as the list of function keys
`addLayer` is invoked for; `versionOk` stands for the
`semver.lt(version, "1.34.0")` guard on the external framework version. -/

def run (versionOk : Bool) (plugins funcKeys : List String) : List String :=
  if !versionOk then []
  else if jsIndexOf plugins "serverless-webpack" > jsIndexOf plugins "serverless-newrelic-layers"
  then []
  else funcKeys

/-! ### Layer ARN resolver (`getLayerArn`, src/index.ts lines 220-232)

The remote interaction is embedded as the already-received outcome: the
request either errored (rejecting the promise), or delivered a body on which
`JSON.parse` fails (throwing inside `.then`, rejecting the promise), or
delivered a parsed JSON document.  `Except.error` is a rejected promise. -/

inductive Json where
  | null
  | str (s : String)
  | arr (elems : List Json)
  | obj (fields : List (String × Json))

def jGetField : Json → String → Option Json
  | Json.obj fs, k => (fs.find? (fun p => p.1 == k)).map (fun p => p.2)
  | _, _ => none

def jIndex : Json → Nat → Option Json
  | Json.arr xs, n => xs.get? n
  | _, _ => none

/-- `_.get(awsResp, "Layers[0].LatestMatchingVersion.LayerVersionArn")`:
`undefined` at any step of the path yields `undefined` overall. -/
def layerVersionArnPath (j : Json) : Option Json :=
  ((((jGetField j "Layers").bind (fun a => jIndex a 0)).bind
      (fun b => jGetField b "LatestMatchingVersion")).bind
    (fun c => jGetField c "LayerVersionArn"))

/-- `getLayerArn(runtime, region)`: `Except.ok none` in the input means the
body arrived but `JSON.parse` throws on it; in the output, `Except.ok`
carries whatever `_.get` returned, `undefined` included. -/
def getLayerArn (resp : Except Unit (Option Json)) : Except Unit (Option Json) :=
  match resp with
  | Except.error e => Except.error e
  | Except.ok none => Except.error ()
  | Except.ok (some body) => Except.ok (layerVersionArnPath body)

/-! ### Log subscription filter reconciler (src/index.ts lines 79-104, 266-345)

AWS requests are embedded as an event trace: `issue c` is the moment the SDK
request `c` is sent; `await c` is a point in the control flow that cannot be
passed before `c` has completed (a `.then`/`await` on its promise).  The
response environment `World` fixes what each request returns. -/

structure SubscriptionFilter where
  filterName : String
  filterPattern : String
deriving DecidableEq

structure FunctionConfig where
  functionArn : String
deriving DecidableEq

structure World where
  getFunction : String → Except Unit FunctionConfig
  describeFilters : String → Except Unit (List SubscriptionFilter)

inductive AwsCall where
  | getFunction (name : String)
  | describeFilters (logGroup : String)
  | putFilter (logGroup filterName filterPattern destinationArn : String)
  | deleteFilter (logGroup filterName : String)
deriving DecidableEq

inductive Event where
  | issue (c : AwsCall)
  | await (c : AwsCall)
deriving DecidableEq

/-- The requests sent, in the order they are sent. -/
def issuedCalls (evs : List Event) : List AwsCall :=
  evs.filterMap (fun ev =>
    match ev with
    | Event.issue c => some c
    | Event.await _ => none)

def isPut : AwsCall → Bool
  | AwsCall.putFilter _ _ _ _ => true
  | _ => false

def isDelete : AwsCall → Bool
  | AwsCall.deleteFilter _ _ => true
  | _ => false

/-- `removeSubscriptionFilter(funcName)` (src/index.ts lines 336-345):
issues the delete; its promise is only consumed by the caller. -/
def removeSubscriptionFilterEvents (funcName : String) : List Event :=
  [Event.issue (AwsCall.deleteFilter ("/aws/lambda/" ++ funcName) "NewRelicLogStreaming")]

/-- `addSubscriptionFilter(funcName, destinationArn)` (src/index.ts lines
320-334). -/
def addSubscriptionFilterEvents (funcName destinationArn : String) : List Event :=
  [Event.issue (AwsCall.putFilter ("/aws/lambda/" ++ funcName)
    "NewRelicLogStreaming" "NR_LAMBDA_MONITORING" destinationArn)]

/-- `describeSubscriptionFilters(funcName, destinationArn)` (src/index.ts
lines 291-318).  The describe request is awaited by its `.then`; in the
stale-filter branch the two `.map` chains call `removeSubscriptionFilter`
then `addSubscriptionFilter` once per stale filter, never awaiting the
returned promises, so only `issue` events are produced there. -/
def describeSubscriptionFiltersEvents (w : World) (funcName destinationArn : String) :
    List Event :=
  [Event.issue (AwsCall.describeFilters ("/aws/lambda/" ++ funcName)),
   Event.await (AwsCall.describeFilters ("/aws/lambda/" ++ funcName))] ++
  match w.describeFilters ("/aws/lambda/" ++ funcName) with
  | Except.error _ => []
  | Except.ok res =>
    if !(res.filter (fun f => f.filterName == "NewRelicLogStreaming")).isEmpty then
      (((res.filter (fun f => f.filterName == "NewRelicLogStreaming")).filter
          (fun f => f.filterPattern != "NR_LAMBDA_MONITORING")).map
        (fun _ => removeSubscriptionFilterEvents funcName)).flatten ++
      (((res.filter (fun f => f.filterName == "NewRelicLogStreaming")).filter
          (fun f => f.filterPattern != "NR_LAMBDA_MONITORING")).map
        (fun _ => addSubscriptionFilterEvents funcName destinationArn)).flatten
    else
      addSubscriptionFilterEvents funcName destinationArn

/-- `getDestinationArn(funcName)` (src/index.ts lines 277-289). -/
def getDestinationArnEvents (w : World) (funcName : String) : List Event :=
  [Event.issue (AwsCall.getFunction "newrelic-log-ingestion"),
   Event.await (AwsCall.getFunction "newrelic-log-ingestion")] ++
  match w.getFunction "newrelic-log-ingestion" with
  | Except.error _ => []
  | Except.ok cfg => describeSubscriptionFiltersEvents w funcName cfg.functionArn

/-- `ensureLogStreamFilter(funcName)` (src/index.ts lines 266-275). -/
def ensureLogStreamFilterEvents (w : World) (funcName : String) : List Event :=
  [Event.issue (AwsCall.getFunction funcName), Event.await (AwsCall.getFunction funcName)] ++
  match w.getFunction funcName with
  | Except.error _ => []
  | Except.ok _ => getDestinationArnEvents w funcName

/-- `addLogStreamFilters()` (src/index.ts lines 79-93): one fire-and-forget
reconciliation per function key, skipped when the key is in
`config.exclude`.  The per-function traces run concurrently, so the driver
is embedded as the list of per-function traces rather than one interleaving. -/
def addLogStreamFilters (w : World) (cfg : GlobalConfig)
    (funcs : List (String × FunctionDef)) : List (List Event) :=
  funcs.map (fun p =>
    if cfg.exclude.contains p.1 then []
    else ensureLogStreamFilterEvents w (optStr p.2.name))

/-- `removeLogStreamFilters()` (src/index.ts lines 95-104): unconditional
per-function removal; the configuration bag is never consulted. -/
def removeLogStreamFilters (funcs : List (String × FunctionDef)) : List (List Event) :=
  funcs.map (fun p => removeSubscriptionFilterEvents (optStr p.2.name))

/-! ### Completion schedules

A completion schedule places, on the index axis of an event trace, the time
at which each issued request completes.  It is valid when every request
completes strictly after it is issued, and no later than any point that
awaits it.  The code guarantees an ordering fact only when it holds in every
valid schedule. -/

def callOf : Event → AwsCall
  | Event.issue c => c
  | Event.await c => c

def isIssueEv : Event → Bool
  | Event.issue _ => true
  | Event.await _ => false

def ValidSchedule (evs : List Event) (σ : Nat → Nat) : Prop :=
  ∀ i : Fin evs.length, isIssueEv (evs.get i) = true →
    (i.1 < σ i.1 ∧
     ∀ j : Fin evs.length, evs.get j = Event.await (callOf (evs.get i)) → σ i.1 ≤ j.1)

instance (evs : List Event) (σ : Nat → Nat) : Decidable (ValidSchedule evs σ) := by
  unfold ValidSchedule; infer_instance

/-- A schedule in which the third event's request (the stale-filter delete)
completes far in the future: nothing in the trace awaits it. -/
def lateThirdSchedule : Nat → Nat :=
  fun i => if i == 0 then 1 else i + 100

/-! ### Helper lemmas about the environment map -/

theorem envGet_cons (p : String × String) (e : List (String × String)) (k : String) :
    envGet (p :: e) k = if p.1 == k then some p.2 else envGet e k := by
  by_cases h : (p.1 == k) = true
  · simp [envGet, List.find?, h]
  · simp only [Bool.not_eq_true] at h
    simp [envGet, List.find?, h]

theorem envGet_mapSet_ne (e : List (String × String)) (k k1 v : String)
    (h : k1 ≠ k) :
    envGet (e.map (fun p => if p.1 == k then (k, v) else p)) k1 = envGet e k1 := by
  induction e with
  | nil => rfl
  | cons p e ih =>
    simp only [beq_iff_eq] at ih
    by_cases hp : p.1 = k
    · simp [envGet_cons, hp, Ne.symm h, ih]
    · simp [envGet_cons, hp, ih]

theorem envGet_append_single_ne (e : List (String × String)) (k k1 v : String)
    (h : k1 ≠ k) :
    envGet (e ++ [(k, v)]) k1 = envGet e k1 := by
  induction e with
  | nil => simp [envGet_cons, Ne.symm h, envGet]
  | cons p e ih =>
    by_cases hp : p.1 = k1
    · simp [envGet_cons, hp]
    · simp [envGet_cons, hp, ih]

theorem envGet_envSet_ne (e : List (String × String)) (k k1 v : String)
    (h : k1 ≠ k) :
    envGet (envSet e k v) k1 = envGet e k1 := by
  unfold envSet
  split
  · exact envGet_mapSet_ne e k k1 v h
  · exact envGet_append_single_ne e k k1 v h

theorem envGet_envSetOpt_ne (e : List (String × String)) (k k1 : String) (v : Option String)
    (h : k1 ≠ k) :
    envGet (envSetOpt e k v) k1 = envGet e k1 := by
  cases v with
  | none => rfl
  | some s => exact envGet_envSet_ne e k k1 s h

theorem envGet_envDefault_ne (e : List (String × String)) (k k1 d : String)
    (h : k1 ≠ k) :
    envGet (envDefault e k d) k1 = envGet e k1 := by
  unfold envDefault
  split
  · rfl
  · exact envGet_envSet_ne e k k1 d h

theorem envGet_envDefaultOpt_ne (e : List (String × String)) (k k1 : String) (d : Option String)
    (h : k1 ≠ k) :
    envGet (envDefaultOpt e k d) k1 = envGet e k1 := by
  unfold envDefaultOpt
  split
  · rfl
  · exact envGet_envSetOpt_ne e k k1 d h

theorem envGet_mapSet_self (e : List (String × String)) (k v : String)
    (hv : (envGet e k).isSome) :
    envGet (e.map (fun p => if p.1 == k then (k, v) else p)) k = some v := by
  induction e with
  | nil => simp [envGet] at hv
  | cons p e ih =>
    simp only [beq_iff_eq] at ih
    by_cases hp : p.1 = k
    · simp [envGet_cons, hp]
    · simp only [envGet_cons, hp, beq_iff_eq, if_false, if_neg hp] at hv
      simp [envGet_cons, hp, ih hv]

theorem envGet_envSetOpt_get_self (e : List (String × String)) (k : String) :
    envGet (envSetOpt e k (envGet e k)) k = envGet e k := by
  cases hv : envGet e k with
  | none => simp [envSetOpt, hv]
  | some v =>
    have hsome : (envGet e k).isSome := by rw [hv]; rfl
    have hfind : ((e.find? (fun p => p.1 == k)).isSome) = true := by
      unfold envGet at hsome
      cases hf : e.find? (fun p => p.1 == k) with
      | none => rw [hf] at hsome; simp at hsome
      | some q => rfl
    simp only [envSetOpt]
    unfold envSet
    rw [if_pos hfind]
    rw [envGet_mapSet_self e k v hsome]

theorem envTruthy_eq_of_get {e e2 : List (String × String)} {k : String}
    (h : envGet e k = envGet e2 k) : envTruthy e k = envTruthy e2 k := by
  unfold envTruthy
  rw [h]

theorem envDefaultOpt_of_truthy {e : List (String × String)} {k : String} {d : Option String}
    (h : envTruthy e k = true) : envDefaultOpt e k d = e := by
  unfold envDefaultOpt
  rw [if_pos h]

/-! ### Helper lemmas about `applyEnv` -/

/-- The defective serverless-mode assignment never changes any key. -/
theorem envGet_stepSmode (e : List (String × String)) (k : String) :
    envGet (stepSmode e) k = envGet e k := by
  by_cases h : k = "NEW_RELIC_SERVERLESS_MODE_ENABLED"
  · subst h
    exact envGet_envSetOpt_get_self e _
  · exact envGet_envSetOpt_ne _ _ _ _ h

theorem envGet_stepTrusted_ne (cfg : GlobalConfig) (e : List (String × String)) (k1 : String)
    (h : k1 ≠ "NEW_RELIC_TRUSTED_ACCOUNT_KEY") :
    envGet (stepTrusted cfg e) k1 = envGet e k1 := by
  unfold stepTrusted
  exact envGet_envDefaultOpt_ne _ _ _ _ h

theorem applyEnv_get_smode (cfg : GlobalConfig) (funcName : String) (name : Option String)
    (handler : String) (e0 : List (String × String)) :
    envGet (applyEnv cfg funcName name handler e0) "NEW_RELIC_SERVERLESS_MODE_ENABLED"
      = envGet e0 "NEW_RELIC_SERVERLESS_MODE_ENABLED" := by
  unfold applyEnv
  rw [envGet_stepSmode]
  rw [envGet_stepTrusted_ne _ _ _ (by decide)]
  rw [envGet_envDefaultOpt_ne _ _ _ _ (by decide)]
  rw [envGet_envDefault_ne _ _ _ _ (by decide)]
  rw [envGet_envDefault_ne _ _ _ _ (by decide)]
  rw [envGet_envDefault_ne _ _ _ _ (by decide)]
  rw [envGet_envDefault_ne _ _ _ _ (by decide)]
  rw [envGet_envSet_ne _ _ _ _ (by decide)]

theorem applyEnv_acct_truthy (cfg : GlobalConfig) (funcName : String) (name : Option String)
    (handler : String) (e0 : List (String × String))
    (ht : envTruthy e0 "NEW_RELIC_ACCOUNT_ID" = true) :
    envTruthy (applyEnv cfg funcName name handler e0) "NEW_RELIC_ACCOUNT_ID" = true := by
  unfold applyEnv
  have h5 :
      envGet (envDefault (envDefault (envDefault (envDefault
          (envSet e0 "NEW_RELIC_LAMBDA_HANDLER" handler)
          "NEW_RELIC_LOG" "stdout")
          "NEW_RELIC_LOG_LEVEL" (if cfg.debug then "debug" else "info"))
          "NEW_RELIC_NO_CONFIG_FILE" "true")
          "NEW_RELIC_APP_NAME" (jsOr name funcName)) "NEW_RELIC_ACCOUNT_ID"
        = envGet e0 "NEW_RELIC_ACCOUNT_ID" := by
    rw [envGet_envDefault_ne _ _ _ _ (by decide)]
    rw [envGet_envDefault_ne _ _ _ _ (by decide)]
    rw [envGet_envDefault_ne _ _ _ _ (by decide)]
    rw [envGet_envDefault_ne _ _ _ _ (by decide)]
    rw [envGet_envSet_ne _ _ _ _ (by decide)]
  have ht5 := (envTruthy_eq_of_get h5).trans ht
  rw [envDefaultOpt_of_truthy ht5]
  apply (envTruthy_eq_of_get _).trans ht5
  rw [envGet_stepSmode]
  rw [envGet_stepTrusted_ne _ _ _ (by decide)]

/-! ### Characterizing the planner's skip checks -/

/-- Conjunction (as a disjunction of the four source checks) under which
`addLayer` returns before mutating anything. -/
def skipsAt (ctx : Ctx) (cfg : GlobalConfig) (fn : String) (d : FunctionDef) : Bool :=
  ctx.region.isNone
    || (!optTruthy cfg.accountId && !envTruthy d.environment "NEW_RELIC_ACCOUNT_ID")
    || !runtimeSupported (effRuntime ctx d)
    || cfg.exclude.contains fn

theorem addLayer_skip_spec (ctx : Ctx) (cfg : GlobalConfig) (arn fn : String)
    (d : FunctionDef) (h : skipsAt ctx cfg fn d = true) :
    (addLayer ctx cfg arn fn d).1.isSome = true ∧ (addLayer ctx cfg arn fn d).2 = d := by
  unfold skipsAt at h
  by_cases hr : ctx.region.isNone = true
  · simp [addLayer, hr]
  · simp only [Bool.not_eq_true] at hr
    by_cases ha : (!optTruthy cfg.accountId && !envTruthy d.environment "NEW_RELIC_ACCOUNT_ID") = true
    · simp [addLayer, hr, ha]
    · simp only [Bool.not_eq_true] at ha
      by_cases hs : runtimeSupported (effRuntime ctx d) = true
      · have hx : cfg.exclude.contains fn = true := by
          rw [hr, ha, hs] at h
          simpa using h
        cases hrt : effRuntime ctx d with
        | none => rw [hrt] at hs; simp [runtimeSupported] at hs
        | some rt =>
          have hsup : rt ∈ supportedRuntimes := by
            rw [hrt] at hs; simpa [runtimeSupported] using hs
          have hx2 : fn ∈ cfg.exclude := by simpa using hx
          simp [addLayer, hr, ha, hrt, hsup, hx2]
      · simp only [Bool.not_eq_true] at hs
        cases hrt : effRuntime ctx d with
        | none => simp [addLayer, hr, ha, hrt]
        | some rt =>
          have hsup : rt ∉ supportedRuntimes := by
            rw [hrt] at hs; simpa [runtimeSupported] using hs
          simp [addLayer, hr, ha, hrt, hsup]

theorem addLayer_of_run (ctx : Ctx) (cfg : GlobalConfig) (arn fn : String)
    (d : FunctionDef) (h : skipsAt ctx cfg fn d = false) :
    ∃ rt, effRuntime ctx d = some rt ∧
      addLayer ctx cfg arn fn d = (none, addLayerMutate ctx cfg arn fn rt d) := by
  unfold skipsAt at h
  simp only [Bool.or_eq_false_iff] at h
  obtain ⟨⟨⟨hr, ha⟩, hs⟩, hx⟩ := h
  have hs2 : runtimeSupported (effRuntime ctx d) = true := by simpa using hs
  cases hrt : effRuntime ctx d with
  | none => rw [hrt] at hs2; simp [runtimeSupported] at hs2
  | some rt =>
    refine ⟨rt, rfl, ?_⟩
    have hsup : rt ∈ supportedRuntimes := by
      rw [hrt] at hs2; simpa [runtimeSupported] using hs2
    have hx2 : fn ∉ cfg.exclude := by simpa using hx
    simp [addLayer, hr, ha, hrt, hsup, hx2]

/-! ### Layer-attachment lemmas -/

theorem leadMatch_self (l : List Char) : leadMatch l l = true := by
  induction l with
  | nil => rfl
  | cons a as ih => simp [leadMatch, ih]

theorem jsMatch_self (s : String) : jsMatch s s = true := by
  unfold jsMatch
  cases h : s.toList with
  | nil => rfl
  | cons c ls => simp [subMatch, leadMatch_self]

theorem filter_not_isEmpty_of_mem {l : List String} {a arn : String}
    (ha : a ∈ l) (hm : jsMatch a arn = true) :
    (l.filter (fun x => jsMatch x arn)).isEmpty = false := by
  have hmem : a ∈ l.filter (fun x => jsMatch x arn) := List.mem_filter.mpr ⟨ha, hm⟩
  cases hl : l.filter (fun x => jsMatch x arn) with
  | nil => rw [hl] at hmem; cases hmem
  | cons b bs => rfl

/-- One attachment pass always leaves a matching layer reference behind, so
a second pass keeps the list unchanged. -/
theorem addLayerLayers_idem (cfg : GlobalConfig) (arn : String) (L : List String) :
    addLayerLayers cfg arn (addLayerLayers cfg arn L) = addLayerLayers cfg arn L := by
  by_cases h : (L.filter (fun l => jsMatch l (effectiveLayerArn cfg arn))).isEmpty = true
  · by_cases hp : cfg.prepend = some true
    · have harn : effectiveLayerArn cfg arn ∈ addLayerLayers cfg arn L := by
        simp [addLayerLayers, h, hp]
      have h2 := filter_not_isEmpty_of_mem harn (jsMatch_self _)
      conv_lhs => rw [addLayerLayers]
      simp [h2]
    · have harn : effectiveLayerArn cfg arn ∈ addLayerLayers cfg arn L := by
        simp [addLayerLayers, h, hp]
      have h2 := filter_not_isEmpty_of_mem harn (jsMatch_self _)
      conv_lhs => rw [addLayerLayers]
      simp [h2]
  · simp only [Bool.not_eq_true] at h
    have hkeep : addLayerLayers cfg arn L = L := by simp [addLayerLayers, h]
    rw [hkeep, hkeep]

/-! ## Claim C9 -/

/-- C9: `getHandlerWrapper` maps runtime "nodejs12.x" (any handler) to
"newrelic-lambda-wrapper.handler", maps "python3.7" to
"newrelic_lambda_wrapper.handler", and returns the handler unchanged for
any runtime matching neither the node nor the python family. -/
theorem getHandlerWrapper_spec :
    (∀ ent h, getHandlerWrapper ent "nodejs12.x" h = "newrelic-lambda-wrapper.handler") ∧
    (∀ ent h, getHandlerWrapper ent "python3.7" h = "newrelic_lambda_wrapper.handler") ∧
    (∀ ent r h, jsMatch r "nodejs" = false → jsMatch r "python" = false →
      getHandlerWrapper ent r h = h) := by
  refine ⟨fun ent h => by cases ent <;> simp [getHandlerWrapper],
    fun ent h => by cases ent <;> simp [getHandlerWrapper, jsMatch, subMatch, leadMatch],
    fun ent r h hn hpy => ?_⟩
  have h1 : r ≠ "nodejs8.10" := fun he => by rw [he] at hn; exact absurd hn (by decide)
  have h2 : r ≠ "nodejs10.x" := fun he => by rw [he] at hn; exact absurd hn (by decide)
  have h3 : r ≠ "nodejs12.x" := fun he => by rw [he] at hn; exact absurd hn (by decide)
  simp [getHandlerWrapper, h1, h2, h3, hpy]

/-- Witness: the unrecognized runtime "go1.x" keeps its handler. -/
theorem getHandlerWrapper_spec_witness :
    jsMatch "go1.x" "nodejs" = false ∧ jsMatch "go1.x" "python" = false ∧
    getHandlerWrapper false "go1.x" "main.handler" = "main.handler" :=
  ⟨by decide, by decide,
    getHandlerWrapper_spec.2.2 false "go1.x" "main.handler" (by decide) (by decide)⟩

/-! ## Claim C4 -/

/-- C4 counterexample: with the plugin list placing serverless-webpack after
this plugin, `run` returns the empty work list — the claimed "still
processes every function" fails on the one-function set ["a"]. -/
theorem run_halts_when_webpack_after_plugin :
    jsIndexOf ["serverless-newrelic-layers", "serverless-webpack"] "serverless-webpack"
      > jsIndexOf ["serverless-newrelic-layers", "serverless-webpack"] "serverless-newrelic-layers" ∧
    run true ["serverless-newrelic-layers", "serverless-webpack"] ["a"] = [] ∧
    run true ["serverless-newrelic-layers", "serverless-webpack"] ["a"] ≠ ["a"] := by decide

/-- C4 (amended): when serverless-webpack has a larger index than
serverless-newrelic-layers, `run` logs and returns, processing no function;
with a compatible ordering it processes every function. -/
theorem run_ordering_spec (plugins funcKeys : List String) :
    (jsIndexOf plugins "serverless-webpack" > jsIndexOf plugins "serverless-newrelic-layers" →
      run true plugins funcKeys = []) ∧
    (¬ (jsIndexOf plugins "serverless-webpack" > jsIndexOf plugins "serverless-newrelic-layers") →
      run true plugins funcKeys = funcKeys) := by
  constructor <;> intro h <;> simp [run, h]

/-- Witness for both branches of the ordering behavior. -/
theorem run_ordering_spec_witness :
    (jsIndexOf ["serverless-newrelic-layers", "serverless-webpack"] "serverless-webpack"
        > jsIndexOf ["serverless-newrelic-layers", "serverless-webpack"] "serverless-newrelic-layers"
      ∧ run true ["serverless-newrelic-layers", "serverless-webpack"] ["f1"] = []) ∧
    (¬ (jsIndexOf ["serverless-webpack", "serverless-newrelic-layers"] "serverless-webpack"
        > jsIndexOf ["serverless-webpack", "serverless-newrelic-layers"] "serverless-newrelic-layers")
      ∧ run true ["serverless-webpack", "serverless-newrelic-layers"] ["f1"] = ["f1"]) :=
  ⟨⟨by decide, (run_ordering_spec _ _).1 (by decide)⟩,
   ⟨by decide, (run_ordering_spec _ _).2 (by decide)⟩⟩

/-! ## Claim C3 -/

/-- C3 counterexample: a parsed body that lacks the
`Layers[0].LatestMatchingVersion.LayerVersionArn` path makes `getLayerArn`
resolve successfully with a missing value rather than fail. -/
theorem getLayerArn_missing_path_succeeds :
    layerVersionArnPath (Json.obj []) = none ∧
    getLayerArn (Except.ok (some (Json.obj []))) = Except.ok none ∧
    getLayerArn (Except.ok (some (Json.obj []))) ≠ Except.error () :=
  ⟨rfl, rfl, fun h => Except.noConfusion h⟩

/-- C3 (amended): `getLayerArn` rejects when the remote call errors or the
body fails to parse, but when the JSON parses and merely lacks the ARN path
it returns successfully with an absent value. -/
theorem getLayerArn_spec :
    (∀ e, getLayerArn (Except.error e) = Except.error e) ∧
    getLayerArn (Except.ok none) = Except.error () ∧
    (∀ j, layerVersionArnPath j = none → getLayerArn (Except.ok (some j)) = Except.ok none) := by
  refine ⟨fun e => rfl, rfl, fun j hj => ?_⟩
  simp [getLayerArn, hj]

/-- Witness: the empty JSON object lacks the path and still resolves `ok`. -/
theorem getLayerArn_spec_witness :
    layerVersionArnPath (Json.obj []) = none ∧
    getLayerArn (Except.ok (some (Json.obj []))) = Except.ok none :=
  ⟨rfl, getLayerArn_spec.2.2 (Json.obj []) rfl⟩

/-! ## Claim C6 -/

/-- C6: when the log group holds no filter named "NewRelicLogStreaming",
the reconciliation issues exactly one put, carrying filterName
"NewRelicLogStreaming" and filterPattern "NR_LAMBDA_MONITORING" (and no
delete at all). -/
theorem add_filter_when_none_existing (w : World) (funcName destinationArn : String)
    (res : List SubscriptionFilter)
    (hres : w.describeFilters ("/aws/lambda/" ++ funcName) = Except.ok res)
    (hnone : res.filter (fun f => f.filterName == "NewRelicLogStreaming") = []) :
    (issuedCalls (describeSubscriptionFiltersEvents w funcName destinationArn)).filter isPut
      = [AwsCall.putFilter ("/aws/lambda/" ++ funcName) "NewRelicLogStreaming"
          "NR_LAMBDA_MONITORING" destinationArn] ∧
    (issuedCalls (describeSubscriptionFiltersEvents w funcName destinationArn)).filter isDelete
      = [] := by
  constructor <;>
    simp [describeSubscriptionFiltersEvents, hres, hnone, issuedCalls,
      addSubscriptionFilterEvents, isPut, isDelete]

/-- Witness: an empty filter list yields exactly the expected put. -/
theorem add_filter_when_none_existing_witness :
    (World.mk (fun _ => Except.ok ⟨"destArn"⟩) (fun _ => Except.ok [])).describeFilters
        ("/aws/lambda/" ++ "f") = Except.ok [] ∧
    ([] : List SubscriptionFilter).filter (fun f => f.filterName == "NewRelicLogStreaming") = [] ∧
    (issuedCalls (describeSubscriptionFiltersEvents
        (World.mk (fun _ => Except.ok ⟨"destArn"⟩) (fun _ => Except.ok [])) "f" "destArn")).filter isPut
      = [AwsCall.putFilter ("/aws/lambda/" ++ "f") "NewRelicLogStreaming"
          "NR_LAMBDA_MONITORING" "destArn"] :=
  ⟨rfl, rfl,
    (add_filter_when_none_existing
      (World.mk (fun _ => Except.ok ⟨"destArn"⟩) (fun _ => Except.ok []))
      "f" "destArn" [] rfl rfl).1⟩

/-! ## Claim C2 -/

/-- Response environment with exactly one stale filter (reserved name, a
pattern other than "NR_LAMBDA_MONITORING") on every log group. -/
def staleWorld : World :=
  { getFunction := fun _ => Except.ok { functionArn := "destArn" },
    describeFilters := fun _ => Except.ok
      [{ filterName := "NewRelicLogStreaming", filterPattern := "OLD_PATTERN" }] }

def staleTrace : List Event := describeSubscriptionFiltersEvents staleWorld "myfunc" "destArn"

/-- C2 (code bug): on one stale filter exactly one delete and one put are
issued, the delete issued (index 2) before the put (index 3) — but the
delete's promise is never awaited, so `lateThirdSchedule` is a valid
completion schedule in which the delete completes only after the put has
been issued: the code does not make the Remove complete before the Add is
issued, as §5 of the spec requires. -/
theorem stale_filter_remove_add_not_sequenced :
    (issuedCalls staleTrace).filter isDelete
      = [AwsCall.deleteFilter "/aws/lambda/myfunc" "NewRelicLogStreaming"] ∧
    (issuedCalls staleTrace).filter isPut
      = [AwsCall.putFilter "/aws/lambda/myfunc" "NewRelicLogStreaming"
          "NR_LAMBDA_MONITORING" "destArn"] ∧
    staleTrace
      = [Event.issue (AwsCall.describeFilters "/aws/lambda/myfunc"),
         Event.await (AwsCall.describeFilters "/aws/lambda/myfunc"),
         Event.issue (AwsCall.deleteFilter "/aws/lambda/myfunc" "NewRelicLogStreaming"),
         Event.issue (AwsCall.putFilter "/aws/lambda/myfunc" "NewRelicLogStreaming"
           "NR_LAMBDA_MONITORING" "destArn")] ∧
    ValidSchedule staleTrace lateThirdSchedule ∧
    3 < lateThirdSchedule 2 := by decide

/-! ## Claim C10 -/

/-- C10: the post-deploy driver contributes no reconciliation call for a
function whose key is in `config.exclude`, while the teardown driver still
issues exactly one delete for that same function. -/
theorem excluded_skipped_in_add_not_in_remove (w : World) (cfg : GlobalConfig)
    (funcs : List (String × FunctionDef)) (i : Nat) (fn : String) (d : FunctionDef)
    (hget : funcs.get? i = some (fn, d)) (hexc : cfg.exclude.contains fn = true) :
    (addLogStreamFilters w cfg funcs).get? i = some [] ∧
    (removeLogStreamFilters funcs).get? i
      = some [Event.issue (AwsCall.deleteFilter ("/aws/lambda/" ++ optStr d.name)
          "NewRelicLogStreaming")] := by
  unfold addLogStreamFilters removeLogStreamFilters
  rw [List.get?_map, List.get?_map, hget]
  have hexc2 : fn ∈ cfg.exclude := by simpa using hexc
  constructor
  · simp [hexc2]
  · simp [removeSubscriptionFilterEvents]

/-- Witness: a one-function service whose only function is excluded. -/
theorem excluded_skipped_in_add_not_in_remove_witness :
    ([(("f" : String), FunctionDef.mk (some "svc-f") "index.handler" none [] [] ⟨[]⟩)].get? 0
        = some ("f", FunctionDef.mk (some "svc-f") "index.handler" none [] [] ⟨[]⟩)) ∧
    ((GlobalConfig.mk none none none ["f"] none false false).exclude.contains "f" = true) ∧
    (addLogStreamFilters (World.mk (fun _ => Except.error ()) (fun _ => Except.error ()))
        (GlobalConfig.mk none none none ["f"] none false false)
        [("f", FunctionDef.mk (some "svc-f") "index.handler" none [] [] ⟨[]⟩)]).get? 0
      = some [] ∧
    (removeLogStreamFilters
        [("f", FunctionDef.mk (some "svc-f") "index.handler" none [] [] ⟨[]⟩)]).get? 0
      = some [Event.issue (AwsCall.deleteFilter ("/aws/lambda/" ++ optStr (some "svc-f"))
          "NewRelicLogStreaming")] := by
  refine ⟨rfl, by decide, ?_⟩
  exact excluded_skipped_in_add_not_in_remove
    (World.mk (fun _ => Except.error ()) (fun _ => Except.error ()))
    (GlobalConfig.mk none none none ["f"] none false false)
    [("f", FunctionDef.mk (some "svc-f") "index.handler" none [] [] ⟨[]⟩)]
    0 "f" (FunctionDef.mk (some "svc-f") "index.handler" none [] [] ⟨[]⟩)
    rfl (by decide)

/-! ## Claim C7 -/

/-- C7: whenever the effective runtime is not a string in the supported set,
`addLayer` returns a skip and the definition keeps every field — layers,
handler, environment and packaging — unchanged. -/
theorem unsupported_runtime_skips (ctx : Ctx) (cfg : GlobalConfig) (arn fn : String)
    (d : FunctionDef) (h : runtimeSupported (effRuntime ctx d) = false) :
    (addLayer ctx cfg arn fn d).1.isSome = true ∧ (addLayer ctx cfg arn fn d).2 = d :=
  addLayer_skip_spec ctx cfg arn fn d (by simp [skipsAt, h])

/-- Witness: runtime "go1.x" is skipped and the definition untouched. -/
theorem unsupported_runtime_skips_witness :
    runtimeSupported (effRuntime (Ctx.mk (some "us-east-1") none false)
        (FunctionDef.mk none "main.handler" (some "go1.x") [] [] ⟨[]⟩)) = false ∧
    (addLayer (Ctx.mk (some "us-east-1") none false)
        (GlobalConfig.mk (some "123") none none [] none false false) "arn:x" "f"
        (FunctionDef.mk none "main.handler" (some "go1.x") [] [] ⟨[]⟩)).1.isSome = true ∧
    (addLayer (Ctx.mk (some "us-east-1") none false)
        (GlobalConfig.mk (some "123") none none [] none false false) "arn:x" "f"
        (FunctionDef.mk none "main.handler" (some "go1.x") [] [] ⟨[]⟩)).2
      = FunctionDef.mk none "main.handler" (some "go1.x") [] [] ⟨[]⟩ := by
  refine ⟨by decide, ?_, ?_⟩
  · exact (unsupported_runtime_skips (Ctx.mk (some "us-east-1") none false)
      (GlobalConfig.mk (some "123") none none [] none false false) "arn:x" "f"
      (FunctionDef.mk none "main.handler" (some "go1.x") [] [] ⟨[]⟩) (by decide)).1
  · exact (unsupported_runtime_skips (Ctx.mk (some "us-east-1") none false)
      (GlobalConfig.mk (some "123") none none [] none false false) "arn:x" "f"
      (FunctionDef.mk none "main.handler" (some "go1.x") [] [] ⟨[]⟩) (by decide)).2

/-! ## Claim C8 -/

/-- C8: if the layers sequence already contains a string equal to the layer
ARN in play, a planner run leaves the layers sequence exactly as it was —
no second copy is appended or prepended. -/
theorem existing_arn_not_duplicated (ctx : Ctx) (cfg : GlobalConfig) (arn fn : String)
    (d : FunctionDef) (h : effectiveLayerArn cfg arn ∈ d.layers) :
    ((addLayer ctx cfg arn fn d).2).layers = d.layers := by
  by_cases hs : skipsAt ctx cfg fn d = true
  · rw [(addLayer_skip_spec ctx cfg arn fn d hs).2]
  · obtain ⟨rt, hrt, heq⟩ := addLayer_of_run ctx cfg arn fn d (by simpa using hs)
    rw [heq]
    show addLayerLayers cfg arn d.layers = d.layers
    simp [addLayerLayers, filter_not_isEmpty_of_mem h (jsMatch_self _)]

/-- Witness: a non-skipped run over layers already holding the ARN. -/
theorem existing_arn_not_duplicated_witness :
    effectiveLayerArn (GlobalConfig.mk (some "123") none none [] none false false) "arn:x"
      ∈ ["arn:x"] ∧
    ((addLayer (Ctx.mk (some "us-east-1") none false)
        (GlobalConfig.mk (some "123") none none [] none false false) "arn:x" "f"
        (FunctionDef.mk none "index.handler" (some "nodejs12.x") [] ["arn:x"] ⟨[]⟩)).2).layers
      = ["arn:x"] := by
  refine ⟨by decide, ?_⟩
  exact existing_arn_not_duplicated (Ctx.mk (some "us-east-1") none false)
    (GlobalConfig.mk (some "123") none none [] none false false) "arn:x" "f"
    (FunctionDef.mk none "index.handler" (some "nodejs12.x") [] ["arn:x"] ⟨[]⟩)
    (by decide)

/-! ## Claim C5 -/

/-- C5 counterexample: a non-skipped run on an environment carrying
`NEW_RELIC_SERVERLESS_MODE_ENABLED = "false"` leaves the value "false" — the
key is not assigned "true". -/
theorem smode_not_assigned_true :
    (addLayer (Ctx.mk (some "us-east-1") none false)
        (GlobalConfig.mk (some "123") none none [] none false false) "arn:x" "f"
        (FunctionDef.mk none "index.handler" (some "nodejs12.x")
          [("NEW_RELIC_SERVERLESS_MODE_ENABLED", "false")] [] ⟨[]⟩)).1 = none ∧
    envGet ((addLayer (Ctx.mk (some "us-east-1") none false)
        (GlobalConfig.mk (some "123") none none [] none false false) "arn:x" "f"
        (FunctionDef.mk none "index.handler" (some "nodejs12.x")
          [("NEW_RELIC_SERVERLESS_MODE_ENABLED", "false")] [] ⟨[]⟩)).2).environment
      "NEW_RELIC_SERVERLESS_MODE_ENABLED" = some "false" ∧
    some "false" ≠ some "true" := by decide

/-- C5 (amended): the `NEW_RELIC_SERVERLESS_MODE_ENABLED` assignment is a
no-op — every planner run keeps the key's prior value (so it is never forced
to "true") — and `config.serverlessModeEnabled` is never read: changing it
changes nothing. -/
theorem smode_assignment_noop :
    (∀ ctx cfg arn fn d,
      envGet ((addLayer ctx cfg arn fn d).2).environment "NEW_RELIC_SERVERLESS_MODE_ENABLED"
        = envGet d.environment "NEW_RELIC_SERVERLESS_MODE_ENABLED") ∧
    (∀ ctx cfg arn fn d b,
      addLayer ctx { cfg with serverlessModeEnabled := b } arn fn d
        = addLayer ctx cfg arn fn d) := by
  constructor
  · intro ctx cfg arn fn d
    by_cases hs : skipsAt ctx cfg fn d = true
    · rw [(addLayer_skip_spec ctx cfg arn fn d hs).2]
    · obtain ⟨rt, hrt, heq⟩ := addLayer_of_run ctx cfg arn fn d (by simpa using hs)
      rw [heq]
      exact applyEnv_get_smode cfg fn d.name d.handler d.environment
  · intro ctx cfg arn fn d b
    cases cfg
    rfl

/-! ## Claim C1 -/

def idemCtx : Ctx := Ctx.mk (some "us-east-1") none false

def idemCfg : GlobalConfig := GlobalConfig.mk (some "123") none none [] none false false

def idemDef : FunctionDef :=
  FunctionDef.mk none "index.handler" (some "nodejs12.x") [] [] ⟨[]⟩

/-- C1 counterexample: running `addLayer` twice is not the same as running
it once.  On a plain nodejs12.x function the second run duplicates the
packaging exclude entry and overwrites `NEW_RELIC_LAMBDA_HANDLER` with the
wrapper handler produced by the first run. -/
theorem addLayer_not_idempotent :
    (addLayer idemCtx idemCfg "arn:x" "f" (addLayer idemCtx idemCfg "arn:x" "f" idemDef).2).2
      ≠ (addLayer idemCtx idemCfg "arn:x" "f" idemDef).2 ∧
    ((addLayer idemCtx idemCfg "arn:x" "f"
        (addLayer idemCtx idemCfg "arn:x" "f" idemDef).2).2).pkg.exclude
      = ["!newrelic-lambda-wrapper.handler", "!newrelic-lambda-wrapper.handler"] ∧
    envGet ((addLayer idemCtx idemCfg "arn:x" "f"
        (addLayer idemCtx idemCfg "arn:x" "f" idemDef).2).2).environment
      "NEW_RELIC_LAMBDA_HANDLER" = some "newrelic-lambda-wrapper.handler" ∧
    envGet ((addLayer idemCtx idemCfg "arn:x" "f" idemDef).2).environment
      "NEW_RELIC_LAMBDA_HANDLER" = some "index.handler" := by decide

/-- C1 (amended): for every definition and config (fixed resolved layer
ARN), running `addLayer` twice yields the same layers sequence as running it
once — no duplicate layer entry.  The rest of the definition is not
idempotent (see the counterexample): the second run duplicates the node
packaging exclude entry and overwrites `NEW_RELIC_LAMBDA_HANDLER`. -/
theorem addLayer_layers_idempotent (ctx : Ctx) (cfg : GlobalConfig) (arn fn : String)
    (d : FunctionDef) :
    ((addLayer ctx cfg arn fn (addLayer ctx cfg arn fn d).2).2).layers
      = ((addLayer ctx cfg arn fn d).2).layers := by
  by_cases hs : skipsAt ctx cfg fn d = true
  · rw [(addLayer_skip_spec ctx cfg arn fn d hs).2,
      (addLayer_skip_spec ctx cfg arn fn d hs).2]
  · have hs2 : skipsAt ctx cfg fn d = false := by simpa using hs
    obtain ⟨rt, hrt, heq⟩ := addLayer_of_run ctx cfg arn fn d hs2
    rw [heq]
    have hrun2 : skipsAt ctx cfg fn (addLayerMutate ctx cfg arn fn rt d) = false := by
      unfold skipsAt at hs2 ⊢
      simp only [Bool.or_eq_false_iff] at hs2 ⊢
      obtain ⟨⟨⟨hr, ha⟩, hsr⟩, hx⟩ := hs2
      refine ⟨⟨⟨hr, ?_⟩, ?_⟩, hx⟩
      · by_cases hA : optTruthy cfg.accountId = true
        · simp [hA]
        · have hA2 : optTruthy cfg.accountId = false := by simpa using hA
          have hB : envTruthy d.environment "NEW_RELIC_ACCOUNT_ID" = true := by
            rw [hA2] at ha
            simpa using ha
          have hB2 : envTruthy (addLayerMutate ctx cfg arn fn rt d).environment
              "NEW_RELIC_ACCOUNT_ID" = true := by
            show envTruthy (applyEnv cfg fn d.name d.handler d.environment)
              "NEW_RELIC_ACCOUNT_ID" = true
            exact applyEnv_acct_truthy cfg fn d.name d.handler d.environment hB
          simp [hB2]
      · have hre : effRuntime ctx (addLayerMutate ctx cfg arn fn rt d) = effRuntime ctx d := rfl
        rw [hre]
        exact hsr
    obtain ⟨rt2, hrt2, heq2⟩ := addLayer_of_run ctx cfg arn fn _ hrun2
    rw [heq2]
    show addLayerLayers cfg arn (addLayerLayers cfg arn d.layers)
      = addLayerLayers cfg arn d.layers
    exact addLayerLayers_idem cfg arn d.layers

end NewRelicLayers
